import Mathlib

/-!
# OddsHarvester — verification of the scrape-orchestration core

Shallow embedding, in Lean 4, of the parts of the OddsHarvester repository
that the checked claims concern:

* `OddsPortalMarketExtractor._parse_market_odds` (generic path) and its
  odds-text normalization `re.sub(r"(\d+\.\d+)\1", r"\1", value)`
  (src/core/odds_portal_market_extractor.py);
* `OddsPortalMarketExtractor.scrape_markets` and the market lambdas built by
  `SportMarketRegistrar.create_market_lambda`
  (src/core/sport_market_registry.py);
* `BaseScraper._determine_game_type`, `BaseScraper.extract_match_links`,
  `BaseScraper.extract_match_odds` / `_scrape_match_data`
  (src/core/base_scraper.py);
* `OddsPortalScraper._get_pagination_info` and `scrape_matches`
  (src/core/odds_portal_scraper.py);
* `run_scraper` and `retry_scrape` (src/core/scraper_app.py).

Python strings become `String`, `None`-able parameters become `Option`,
raised exceptions become `Except`, and the asyncio semaphore of
`extract_match_odds` becomes an explicit small-step transition system.
-/

namespace OddsHarvester

/-! ## Odds-text normalization (src/core/odds_portal_market_extractor.py:334)

The generic parsing path applies `re.sub(r"(\d+\.\d+)\1", r"\1", value)` to
every extracted odds text.  The model implements exactly that regex
substitution: leftmost scan, greedy `\d+` with backtracking, the
backreference `\1`, the matched span replaced by group 1, scanning resuming
after the match. -/

/-- Length of the maximal digit run at the head of `cs` (the greedy `\d+`). -/
def digitRun (cs : List Char) : Nat := (cs.takeWhile Char.isDigit).length

/-- Attempt to match `(\d+\.\d+)\1` at the head of `cs`.  `\d+` tries the
longest run first and backtracks (`k₁`, `k₂` descending); on success returns
group 1 together with the length of the whole match (twice the group).  -/
def tryMatchDoubled (cs : List Char) : Option (List Char × Nat) :=
  let m₁ := digitRun cs
  ((List.range m₁).map fun j => m₁ - j).findSome? fun k₁ =>
    match cs.drop k₁ with
    | '.' :: rest₁ =>
      let m₂ := digitRun rest₁
      ((List.range m₂).map fun j => m₂ - j).findSome? fun k₂ =>
        let g := cs.take k₁ ++ '.' :: rest₁.take k₂
        if g.isPrefixOf (rest₁.drop k₂) then some (g, 2 * g.length) else none
    | _ => none

/-- One left-to-right pass of `re.sub(r"(\d+\.\d+)\1", r"\1", ·)`: at each
position try the pattern; on a match emit group 1 and resume after the whole
match, otherwise emit the character and advance.  `fuel` (initially the
length of the list) bounds the recursion; every step consumes at least one
character, so the fuel never runs out on the initial call. -/
def subDoubledGo : Nat → List Char → List Char
  | _, [] => []
  | 0, cs => cs
  | fuel + 1, c :: cs =>
    match tryMatchDoubled (c :: cs) with
    | some (g, consumed) => g ++ subDoubledGo fuel ((c :: cs).drop consumed)
    | none => c :: subDoubledGo fuel cs

/-- `re.sub(r"(\d+\.\d+)\1", r"\1", value)` — collapses a doubled decimal
number such as `"1.951.95"` to `"1.95"`. -/
def normalizeOdds (s : String) : String :=
  (subDoubledGo s.toList.length s.toList).asString

example : normalizeOdds "12.3412.34" = "12.34" := by decide
example : normalizeOdds "1.11.2" = "1.11.2" := by decide
example : normalizeOdds "5.55.55" = "5.55" := by decide
example : normalizeOdds "1.951.956" = "1.956" := by decide
example : normalizeOdds "0.50.5x" = "0.5x" := by decide

/-! ## Generic market parsing (src/core/odds_portal_market_extractor.py:305-345)

The `else` branch of `_parse_market_odds`.  A bookmaker block is abstracted
to the data the branch reads from it: the bookmaker name (`img` title, or
`"Unknown"` when the logo is absent) and the stripped texts of its odds
value blocks. -/

structure BookmakerBlock where
  bookmaker_name : String
  oddsTexts : List String
deriving DecidableEq, Repr

/-- One entry of the list returned by the generic path: the odds labels
paired with the (normalized) odds texts, plus the `bookmaker_name` and
`period` keys the code adds to the dict. -/
structure GenericOddsEntry where
  odds : List (String × String)
  bookmaker_name : String
  period : String
deriving DecidableEq, Repr

/-- Case-insensitive comparison, `a.lower() != b.lower()` negated. -/
def pyLowerEq (a b : String) : Bool := a.toLower == b.toLower

/-- Generic branch of `_parse_market_odds`: skips a block whose bookmaker
name is empty or does not match `target_bookmaker`, skips when `odds_labels`
is falsy, skips a block with fewer odds value blocks than labels, and
otherwise emits one entry whose values are the odds texts passed through
`normalizeOdds`. -/
def parse_market_odds_generic (blocks : List BookmakerBlock) (period : String)
    (odds_labels : List String) (target_bookmaker : Option String) :
    List GenericOddsEntry :=
  blocks.filterMap fun b =>
    if b.bookmaker_name = "" then none
    else if target_bookmaker.any fun t => !pyLowerEq b.bookmaker_name t then none
    else if odds_labels = [] then none
    else if b.oddsTexts.length < odds_labels.length then none
    else some
      { odds := (odds_labels.zip b.oddsTexts).map fun p => (p.1, normalizeOdds p.2)
        bookmaker_name := b.bookmaker_name
        period := period }

/-- C8: the normalization collapses a doubled decimal (`"1.951.95" → "1.95"`),
leaves a normal value (`"2.10"`) unchanged, and every odds value produced by
the generic market path is the `normalizeOdds` image of one of the raw odds
texts — a string, never numerically parsed. -/
theorem generic_odds_normalization :
    normalizeOdds "1.951.95" = "1.95" ∧ normalizeOdds "2.10" = "2.10" ∧
    ∀ (blocks : List BookmakerBlock) (period : String)
      (odds_labels : List String) (target : Option String)
      (e : GenericOddsEntry) (kv : String × String),
      e ∈ parse_market_odds_generic blocks period odds_labels target →
      kv ∈ e.odds →
      ∃ b ∈ blocks, ∃ raw ∈ b.oddsTexts, kv.2 = normalizeOdds raw := by
  refine ⟨by decide, by decide, ?_⟩
  intro blocks period odds_labels target e kv he hkv
  rw [parse_market_odds_generic, List.mem_filterMap] at he
  obtain ⟨b, hb, hfb⟩ := he
  refine ⟨b, hb, ?_⟩
  split at hfb
  · exact absurd hfb (by simp)
  · split at hfb
    · exact absurd hfb (by simp)
    · split at hfb
      · exact absurd hfb (by simp)
      · split at hfb
        · exact absurd hfb (by simp)
        · obtain rfl : _ = e := Option.some.inj hfb
          simp only [List.mem_map] at hkv
          obtain ⟨p, hp, rfl⟩ := hkv
          exact ⟨p.2, (List.of_mem_zip hp).2, rfl⟩

/-! ## Pagination (src/core/odds_portal_scraper.py:177-201)

`_get_pagination_info` reads the texts of the pagination links, keeps the
digit-only ones as page numbers (`int(text)` when `text.isdigit()`), falls
back to `[1]` when none are found, and otherwise returns
`sorted(total_pages)[:max_pages] if max_pages else total_pages`.
`pyStrToNat` returns `some` exactly for a non-empty all-digit string,
mirroring `isdigit` + `int`. -/

/-- `int(text)` guarded by `text.isdigit()`: `some` of the decimal value for
a non-empty string of digits, `none` otherwise. -/
def pyStrToNat (s : String) : Option Nat :=
  let cs := s.toList
  if cs ≠ [] ∧ cs.all Char.isDigit then
    some (cs.foldl (fun n c => n * 10 + (c.toNat - '0'.toNat)) 0)
  else none

def get_pagination_info (texts : List String) (max_pages : Option Nat) : List Nat :=
  let total_pages := texts.filterMap pyStrToNat
  if total_pages = [] then [1]
  else
    match max_pages with
    | some m => if m ≠ 0 then (total_pages.mergeSort (fun a b => decide (a ≤ b))).take m
                else total_pages
    | none => total_pages

/-- C6 counterexample: with pages discovered in the order 2, 1 and no
max-pages cap, `_get_pagination_info` returns them unsorted — `[2, 1]`, not
ascending as the claim states. -/
theorem pagination_unsorted_counterexample :
    get_pagination_info ["2", "1"] none = [2, 1] ∧
    ¬ List.Sorted (· ≤ ·) (get_pagination_info ["2", "1"] none) := by
  constructor
  · rfl
  · rw [show get_pagination_info ["2", "1"] none = [2, 1] from rfl]
    decide

/-- C6 amended: when a non-zero max-pages cap is supplied the page list is
the discovered page numbers sorted ascending and truncated to the cap (hence
sorted); when no cap is supplied the list is all discovered page numbers in
discovery order, not sorted. -/
theorem pagination_amended (texts : List String) (m : Nat)
    (h : texts.filterMap pyStrToNat ≠ []) (hm : m ≠ 0) :
    get_pagination_info texts (some m)
      = ((texts.filterMap pyStrToNat).mergeSort (fun a b => decide (a ≤ b))).take m
    ∧ List.Sorted (· ≤ ·) (get_pagination_info texts (some m))
    ∧ get_pagination_info texts none = texts.filterMap pyStrToNat := by
  refine ⟨?_, ?_, ?_⟩
  · simp only [get_pagination_info, if_neg h, hm, ite_true, ne_eq, not_false_iff]
  · simp only [get_pagination_info, if_neg h, hm, ite_true, ne_eq, not_false_iff]
    exact List.Pairwise.sublist
      (((texts.filterMap pyStrToNat).mergeSort (fun a b => decide (a ≤ b))).take_sublist m)
      (List.sorted_mergeSort' _)
  · simp only [get_pagination_info, if_neg h]

/-- Witness for `pagination_amended` at the discovered pages `["2", "1"]`
with cap 1. -/
theorem pagination_amended_witness :
    get_pagination_info ["2", "1"] (some 1)
      = ((["2", "1"].filterMap pyStrToNat).mergeSort (fun a b => decide (a ≤ b))).take 1
    ∧ List.Sorted (· ≤ ·) (get_pagination_info ["2", "1"] (some 1))
    ∧ get_pagination_info ["2", "1"] none = ["2", "1"].filterMap pyStrToNat :=
  pagination_amended ["2", "1"] 1 (by decide) (by decide)

/-! ## Match-link extraction (src/core/base_scraper.py:242-273)

`extract_match_links` parses the page into event rows, and builds the set
`{BASE + href | row ∈ event_rows, link ∈ row, len(href.strip('/').split('/')) > 3}`,
returned as a list.  A page's parsed content is abstracted to the list of
event rows, each row the list of its anchors' `href` strings. -/

def ODDSPORTAL_BASE_URL : String := "https://www.oddsportal.com"

/-- Python `str.split('/')` on the character list: `""` yields one empty
segment, consecutive separators yield empty segments. -/
def splitOnSlash (cs : List Char) : List (List Char) :=
  cs.foldr
    (fun c acc =>
      if c = '/' then [] :: acc
      else
        match acc with
        | [] => [[c]]
        | h :: t => (c :: h) :: t)
    [[]]

/-- `len(href.strip('/').split('/'))`: the number of path segments of the
href once leading and trailing slashes are stripped. -/
def hrefSegments (href : String) : Nat :=
  (splitOnSlash (((href.toList.dropWhile (· = '/')).reverse.dropWhile (· = '/')).reverse)).length

/-- `BaseScraper.extract_match_links`: over all event rows, every anchor
href with more than 3 path segments, prefixed with the base URL,
deduplicated (the Python set comprehension). -/
def extract_match_links (event_rows : List (List String)) : List String :=
  (((event_rows.flatten).filter fun href => 3 < hrefSegments href).map
    fun href => ODDSPORTAL_BASE_URL ++ href).dedup

example : hrefSegments "/football/france/ligue-1/match-x/" = 4 := by decide
example : hrefSegments "/a/b/c/" = 3 := by decide
example : hrefSegments "//a//b//" = 3 := by decide
example : hrefSegments "" = 1 := by decide

/-- C7: `extract_match_links` never returns duplicates, deduplication is
idempotent (so a second run over identical content yields the same set), and
every returned link is the base URL prefixed to an href of the page with
more than 3 path segments. -/
theorem extract_match_links_spec (event_rows : List (List String)) :
    (extract_match_links event_rows).Nodup
    ∧ (extract_match_links event_rows).dedup = extract_match_links event_rows
    ∧ ∀ l ∈ extract_match_links event_rows, ∃ href ∈ event_rows.flatten,
        3 < hrefSegments href ∧ l = ODDSPORTAL_BASE_URL ++ href := by
  refine ⟨List.nodup_dedup _, List.Nodup.dedup (List.nodup_dedup _), ?_⟩
  intro l hl
  rw [extract_match_links, List.mem_dedup, List.mem_map] at hl
  obtain ⟨href, hmem, rfl⟩ := hl
  rw [List.mem_filter] at hmem
  exact ⟨href, hmem.1, by simpa using hmem.2, rfl⟩

/-! ## Game-type classification (src/core/base_scraper.py:35-145)

`_determine_game_type(match_link, tournament_name, season_type,
tournament_stage)`: all inputs are lowercased (`None` becoming `""`); when
the lowered link contains `"baseball/usa/mlb"` four MLB-specific checks run
in order (tournament stage, season type, tournament name, URL part after
`mlb-YYYY/`), each returning on first match; then a generic keyword pass
over the link and tournament name; default `"regular_season"`. -/

/-- Python's `sub in s` substring test. -/
def strContains (hay needle : String) : Bool :=
  hay.toList.tails.any fun t => needle.toList.isPrefixOf t

/-- `any(term in s for term in terms)`. -/
def anyTermIn (s : String) (terms : List String) : Bool :=
  terms.any fun t => strContains s t

/-- Python `str.lower()` (ASCII case fold, as the code's inputs use). -/
def pyLower (s : String) : String := (s.toList.map Char.toLower).asString

/-- Match of `mlb-[0-9]{4}/([^/]+)` anchored at the head of `cs`: group 1,
the maximal non-`/` run after `mlb-`, four digits and `/`. -/
def mlbPartAt (cs : List Char) : Option (List Char) :=
  match cs with
  | 'm' :: 'l' :: 'b' :: '-' :: rest =>
    if (rest.take 4).length = 4 ∧ (rest.take 4).all Char.isDigit then
      match rest.drop 4 with
      | '/' :: rest₂ =>
        let part := rest₂.takeWhile (· ≠ '/')
        if part ≠ [] then some part else none
      | _ => none
    else none
  | _ => none

/-- `re.search(r'mlb-[0-9]{4}/([^/]+)', link)`: group 1 of the leftmost
match. -/
def findMlbPart (cs : List Char) : Option (List Char) :=
  cs.tails.findSome? mlbPartAt

/-- MLB check 1 — the tournament stage (lowered; `""` for `None`). -/
def mlbStageClassification (stage : String) : Option String :=
  if stage ≠ "" then
    if anyTermIn stage ["playoff", "post", "world series", "wild card",
        "championship series", "division series"] then some "playoffs"
    else if anyTermIn stage ["spring training", "pre", "exhibition"] then some "preseason"
    else if strContains stage "all-star" || strContains stage "all star" then some "exhibition"
    else none
  else none

/-- MLB check 2 — the season type (lowered; `""` for `None`). -/
def mlbSeasonTypeClassification (seasonType : String) : Option String :=
  if seasonType ≠ "" then
    if anyTermIn seasonType ["playoff", "post"] then some "playoffs"
    else if anyTermIn seasonType ["pre", "spring"] then some "preseason"
    else none
  else none

/-- MLB check 3 — the tournament name (lowered). -/
def mlbTournamentClassification (tournament : String) : Option String :=
  if tournament ≠ "" then
    if strContains tournament "spring training" then some "preseason"
    else if strContains tournament "all-star" || strContains tournament "all star" then
      some "exhibition"
    else if anyTermIn tournament ["world series", "playoff", "postseason", "wild card",
        "division series", "championship series"] then some "playoffs"
    else none
  else none

/-- MLB check 4 — the URL part after `mlb-YYYY/`. -/
def mlbUrlClassification (link : String) : Option String :=
  match findMlbPart link.toList with
  | some part =>
    let p := part.asString
    if anyTermIn p ["playoff", "post-season", "world-series", "wild-card",
        "division-series", "championship-series"] then some "playoffs"
    else if strContains p "spring-training" then some "preseason"
    else if strContains p "all-star" then some "exhibition"
    else none
  | none => none

/-- The `game_type_patterns` dict, in insertion order. -/
def game_type_patterns : List (String × List String) :=
  [("playoffs", ["playoff", "post-season", "postseason", "world series", "wild card",
      "wildcard", "division series", "championship series", "final", "finals", "semifinal"]),
   ("preseason", ["pre-season", "preseason", "spring training", "exhibition game",
      "warm-up", "preparatory", "friendly match"]),
   ("exhibition", ["exhibition", "all-star", "all star", "all-stars", "friendly",
      "charity", "showcase", "celebrity", "demo", "demonstration"]),
   ("qualification", ["qualification", "qualifier", "qualifying", "prelim",
      "preliminary", "play-in", "play in", "knockout stage", "group stage"])]

/-- The sport-agnostic pass: first game type one of whose patterns occurs in
the lowered link, or in the lowered tournament name when that is
non-empty. -/
def generalPatternClassification (link tournament : String) : Option String :=
  game_type_patterns.findSome? fun gt =>
    if gt.2.any (fun pat => strContains link pat ||
        (tournament ≠ "" && strContains tournament pat)) then some gt.1
    else none

/-- `BaseScraper._determine_game_type`. -/
def determine_game_type (match_link tournament_name : String)
    (season_type tournament_stage : Option String) : String :=
  let link_lower := pyLower match_link
  let tournament_lower := pyLower tournament_name
  let season_type_lower := pyLower (season_type.getD "")
  let tournament_stage_lower := pyLower (tournament_stage.getD "")
  ((if strContains link_lower "baseball/usa/mlb" then
      (mlbStageClassification tournament_stage_lower).orElse fun _ =>
        (mlbSeasonTypeClassification season_type_lower).orElse fun _ =>
          (mlbTournamentClassification tournament_lower).orElse fun _ =>
            mlbUrlClassification link_lower
    else none).orElse fun _ =>
      generalPatternClassification link_lower tournament_lower).getD "regular_season"

example : findMlbPart "zzmlb-1999/spring-training".toList
    = some "spring-training".toList := by decide
example : findMlbPart "mlb-24/x".toList = none := by decide
example : determine_game_type "https://x/football/a/b" "MLB All-Star Game" none
    (some "World Series") = "exhibition" := by decide
example : determine_game_type "https://x/baseball/usa/mlb-2024/x" "" none none
    = "regular_season" := by decide

/-- C3 counterexample: with `tournamentStage = "World Series"` but a match
URL that does not contain `baseball/usa/mlb`, the stage is never consulted
and classification falls through to `"regular_season"`, not `"playoffs"`. -/
theorem world_series_stage_counterexample :
    determine_game_type "" "" none (some "World Series") = "regular_season" ∧
    determine_game_type "" "" none (some "World Series") ≠ "playoffs" := by
  constructor
  · rfl
  · intro h
    exact absurd ((rfl :
      determine_game_type "" "" none (some "World Series") = "regular_season").symm.trans h)
      (by decide)

/-- C3 amended: the four-source precedence runs only for MLB links. For
every input whose match URL contains `"baseball/usa/mlb"` (lowercased),
`tournamentStage = "World Series"` yields `"playoffs"` regardless of the
tournament name, the season type and the rest of the URL. -/
theorem world_series_stage_amended (match_link tournament_name : String)
    (season_type : Option String)
    (h : strContains (pyLower match_link) "baseball/usa/mlb" = true) :
    determine_game_type match_link tournament_name season_type (some "World Series")
      = "playoffs" := by
  have hstage : mlbStageClassification (pyLower "World Series") = some "playoffs" := by
    decide
  rw [determine_game_type, h]
  simp only [Option.getD_some, hstage, if_true]
  rfl

/-- Witness for `world_series_stage_amended` at an MLB playoff page whose
tournament name (`"Friendly"`) and URL tail would otherwise classify
differently. -/
theorem world_series_stage_amended_witness :
    determine_game_type "https://www.oddsportal.com/baseball/usa/mlb-2024/friendly-demo/"
      "Friendly" (some "Pre") (some "World Series") = "playoffs" :=
  world_series_stage_amended
    "https://www.oddsportal.com/baseball/usa/mlb-2024/friendly-demo/" "Friendly"
    (some "Pre") (by decide)

/-! ## The scheduler's per-link outcomes (src/core/base_scraper.py:275-430)

`extract_match_odds` gathers one `scrape_with_semaphore(link)` task per
link.  Each task runs `_scrape_match_data`, whose outcome we abstract by
what the match page gives the worker:

* `gotoFails` — `page.goto`/processing raises a Playwright `Error`
  (timeouts included): `_scrape_match_data`'s `except Error` catches it and
  returns `None`;
* `headerMissing` — the react-event-header is absent or unparsable:
  `_scrape_match_data` returns `None`;
* `ok d` — the page yields match details `d`;
* `raises` — a non-Playwright exception escapes `_scrape_match_data`, is
  caught in `scrape_with_semaphore`, and the link goes to `failed_links`. -/

inductive MatchPageEnv (α : Type) where
  | gotoFails
  | headerMissing
  | ok (d : α)
  | raises
deriving DecidableEq, Repr

/-- `_scrape_match_data`: `.error` models an exception propagating to the
worker, `.ok none` a normal `None` return, `.ok (some d)` scraped data. -/
def scrape_match_data {α : Type} : MatchPageEnv α → Except Unit (Option α)
  | .gotoFails => .ok none
  | .headerMissing => .ok none
  | .ok d => .ok (some d)
  | .raises => .error ()

/-- What `scrape_with_semaphore(link)` contributes to `results`: the data
on success, `None` otherwise (a raised exception returns `None` after
appending to `failed_links`). -/
def worker_result {α : Type} (p : String × MatchPageEnv α) : Option α :=
  match scrape_match_data p.2 with
  | .ok (some d) => some d
  | _ => none

/-- What `scrape_with_semaphore(link)` appends to `failed_links`: the link,
exactly when `_scrape_match_data` raised. -/
def worker_failure {α : Type} (p : String × MatchPageEnv α) : Option String :=
  match scrape_match_data p.2 with
  | .error _ => some p.1
  | _ => none

/-- Whether the worker returned `None` without raising. -/
def worker_silent {α : Type} (p : String × MatchPageEnv α) : Bool :=
  match scrape_match_data p.2 with
  | .ok none => true
  | _ => false

/-- `extract_match_odds` run over its links: first component `odds_data`
(the non-`None` results, in link order), second the `failed_links` (the
links whose worker raised). -/
def extract_match_odds {α : Type} (links : List (String × MatchPageEnv α)) :
    List α × List String :=
  (links.filterMap worker_result, links.filterMap worker_failure)

/-- Links whose worker terminated normally with `None` — neither a result
nor a failed link. -/
def silently_dropped {α : Type} (links : List (String × MatchPageEnv α)) : Nat :=
  links.countP worker_silent

/-- C1 counterexample: one link whose match page has no event header — its
worker terminates normally with `None`, so it is in neither `odds_data` nor
`failed_links`, and `len(results) + len(failedLinks) = 0 ≠ 1 = N`. -/
theorem extract_match_odds_partition_counterexample :
    (extract_match_odds [("https://m", (MatchPageEnv.headerMissing : MatchPageEnv Nat))]).1.length
      + (extract_match_odds [("https://m", (MatchPageEnv.headerMissing : MatchPageEnv Nat))]).2.length
      ≠ [("https://m", (MatchPageEnv.headerMissing : MatchPageEnv Nat))].length := by
  decide

/-- C1 amended: every link contributes one record, or appears in the
failed-links list, or its worker returned `None` without raising (a caught
Playwright error or a missing event header); the three counts always sum to
`N`, and `len(results) + len(failedLinks) = N` exactly when no worker
returns `None`. -/
theorem partition_cons {α : Type} (p : String × MatchPageEnv α)
    (t : List (String × MatchPageEnv α)) :
    (extract_match_odds (p :: t)).1.length + (extract_match_odds (p :: t)).2.length
        + silently_dropped (p :: t)
      = ((extract_match_odds t).1.length + (extract_match_odds t).2.length
        + silently_dropped t) + 1 := by
  obtain ⟨l, env⟩ := p
  cases env <;>
    simp [extract_match_odds, silently_dropped, List.filterMap_cons, List.countP_cons,
      worker_result, worker_failure, worker_silent, scrape_match_data] <;>
    omega

theorem extract_match_odds_partition {α : Type} (links : List (String × MatchPageEnv α)) :
    (extract_match_odds links).1.length + (extract_match_odds links).2.length
      + silently_dropped links = links.length := by
  induction links with
  | nil => rfl
  | cons p t ih => rw [partition_cons, ih, List.length_cons]

/-! ## The semaphore's concurrency bound (src/core/base_scraper.py:298-331)

`extract_match_odds` creates `asyncio.Semaphore(concurrent_scraping_task)`
and every worker runs `async with semaphore:` around opening a tab,
scraping, and closing the tab in its `finally`.  The run is modelled as a
small-step transition system over worker counts:

* `acquire` — a worker enters `async with semaphore` (needs a free permit);
* `openTab` — `self.playwright_manager.context.new_page()`;
* `closeTab` — `await tab.close()` in the worker's `finally`;
* `release` — the worker leaves the `async with` block (after `finally`).

The system allows a worker to open and close a tab any number of times
while holding its permit — a superset of the code's single open/close, so
an invariant over all reachable states covers every run of the code. -/

structure SchedState where
  free : Nat
  pending : Nat
  holding : Nat
  openTabs : Nat
  finished : Nat
deriving DecidableEq, Repr

inductive SchedStep : SchedState → SchedState → Prop where
  | acquire (f p h o d : Nat) :
      SchedStep ⟨f + 1, p + 1, h, o, d⟩ ⟨f, p, h + 1, o, d⟩
  | openTab (f p h o d : Nat) :
      SchedStep ⟨f, p, h + 1, o, d⟩ ⟨f, p, h, o + 1, d⟩
  | closeTab (f p h o d : Nat) :
      SchedStep ⟨f, p, h, o + 1, d⟩ ⟨f, p, h + 1, o, d⟩
  | release (f p h o d : Nat) :
      SchedStep ⟨f, p, h + 1, o, d⟩ ⟨f + 1, p, h, o, d + 1⟩

/-- Start of a run over `N` links with semaphore value `K`: `K` free
permits, `N` pending workers, no tab open. -/
def schedInit (K N : Nat) : SchedState := ⟨K, N, 0, 0, 0⟩

/-- Permit accounting: free permits plus permits held (tab open or not)
equal the semaphore's initial value. -/
def permitInv (K : Nat) (s : SchedState) : Prop :=
  s.free + s.holding + s.openTabs = K

theorem permitInv_step {K : Nat} {s t : SchedState} (hst : SchedStep s t)
    (hs : permitInv K s) : permitInv K t := by
  cases hst <;> simp only [permitInv] at hs ⊢ <;> omega

/-- C9: in every state reachable during a run of `extract_match_odds` over
`N` links with concurrency bound `K`, at most `K` tabs (pages) are open
simultaneously. -/
theorem scheduler_concurrency_bound (K N : Nat) (s : SchedState)
    (h : Relation.ReflTransGen SchedStep (schedInit K N) s) : s.openTabs ≤ K := by
  have hinv : permitInv K s := by
    induction h with
    | refl => simp [permitInv, schedInit]
    | tail _ hstep ih => exact permitInv_step hstep ih
  simp only [permitInv] at hinv
  omega

/-- Witness for `scheduler_concurrency_bound` at `K = 2`, `N = 5`, in the
initial state. -/
theorem scheduler_concurrency_bound_witness : (schedInit 2 5).openTabs ≤ 2 :=
  scheduler_concurrency_bound 2 5 (schedInit 2 5) Relation.ReflTransGen.refl

/-- `j` workers acquire in sequence. -/
theorem reach_acquireAll :
    ∀ (j f p h o d : Nat), Relation.ReflTransGen SchedStep
      ⟨f + j, p + j, h, o, d⟩ ⟨f, p, h + j, o, d⟩
  | 0, _, _, _, _, _ => Relation.ReflTransGen.refl
  | j + 1, f, p, h, o, d => by
    have h₁ : SchedStep ⟨f + (j + 1), p + (j + 1), h, o, d⟩ ⟨f + j, p + j, h + 1, o, d⟩ :=
      SchedStep.acquire (f + j) (p + j) h o d
    have h₂ := reach_acquireAll j f p (h + 1) o d
    rw [show h + 1 + j = h + (j + 1) by omega] at h₂
    exact Relation.ReflTransGen.head h₁ h₂

/-- `j` permit-holding workers open their tabs in sequence. -/
theorem reach_openAll :
    ∀ (j f p h o d : Nat), Relation.ReflTransGen SchedStep
      ⟨f, p, h + j, o, d⟩ ⟨f, p, h, o + j, d⟩
  | 0, _, _, _, _, _ => Relation.ReflTransGen.refl
  | j + 1, f, p, h, o, d => by
    have h₁ : SchedStep ⟨f, p, h + (j + 1), o, d⟩ ⟨f, p, h + j, o + 1, d⟩ := by
      have := SchedStep.openTab f p (h + j) o d
      rwa [show h + j + 1 = h + (j + 1) by omega] at this
    have h₂ := reach_openAll j f p h (o + 1) d
    rw [show o + 1 + j = o + (j + 1) by omega] at h₂
    exact Relation.ReflTransGen.head h₁ h₂

/-! ## Explicit-links concurrency (src/core/odds_portal_scraper.py:131-165)

`scrape_matches` calls `extract_match_odds(..., concurrent_scraping_task=
len(match_links))`, while `scrape_historic`/`scrape_upcoming` leave the
parameter at its default `SCRAPE_CONCURRENCY_TASKS`. -/

/-- `SCRAPE_CONCURRENCY_TASKS` (src/utils/constants.py), the default bound
used by the historic and upcoming flows. -/
def SCRAPE_CONCURRENCY_TASKS : Nat := 2

/-- The `concurrent_scraping_task` argument `scrape_matches` passes. -/
def scrape_matches_concurrency (match_links : List String) : Nat :=
  match_links.length

/-- C10: in the explicit-links flow the concurrency bound is the number of
supplied links, so the state in which all `N` links' pages are open at once
is reachable, whatever the default `SCRAPE_CONCURRENCY_TASKS` is. -/
theorem scrape_matches_all_pages_open (match_links : List String)
    (_hne : match_links ≠ []) :
    scrape_matches_concurrency match_links = match_links.length ∧
    Relation.ReflTransGen SchedStep
      (schedInit (scrape_matches_concurrency match_links) match_links.length)
      ⟨0, 0, 0, match_links.length, 0⟩ := by
  refine ⟨rfl, ?_⟩
  have h₁ := reach_acquireAll match_links.length 0 0 0 0 0
  have h₂ := reach_openAll match_links.length 0 0 0 0 0
  simp only [Nat.zero_add] at h₁ h₂
  exact h₁.trans h₂

/-- Witness for `scrape_matches_all_pages_open` with two explicit links:
bound 2 (= number of links), and the all-pages-open state is reachable. -/
theorem scrape_matches_all_pages_open_witness :
    scrape_matches_concurrency ["https://a", "https://b"] = (["https://a", "https://b"] : List String).length ∧
    Relation.ReflTransGen SchedStep
      (schedInit (scrape_matches_concurrency ["https://a", "https://b"])
        (["https://a", "https://b"] : List String).length)
      ⟨0, 0, 0, (["https://a", "https://b"] : List String).length, 0⟩ :=
  scrape_matches_all_pages_open ["https://a", "https://b"] (by decide)

/-! ## Retry policy (src/core/scraper_app.py:155-167)

`retry_scrape(scrape_func, ...)` loops `for attempt in range(1, MAX_RETRIES + 1)`,
returning the operation's value on success; on an exception whose string
matches a transient keyword it sleeps `RETRY_DELAY_SECONDS` and continues,
otherwise it re-raises; after the loop it returns `None`.  An operation is
modelled as a map from the attempt number to its outcome (`.ok` a value,
`.error` the exception's string), and the run is recorded as the list of
invoke/sleep events together with the final outcome. -/

def MAX_RETRIES : Nat := 3

def RETRY_DELAY_SECONDS : Nat := 20

/-- `TRANSIENT_ERRORS` (src/core/scraper_app.py:14-30). -/
def TRANSIENT_ERRORS : List String :=
  ["ERR_CONNECTION_RESET", "ERR_CONNECTION_TIMED_OUT", "ERR_NAME_NOT_RESOLVED",
   "ERR_PROXY_CONNECTION_FAILED", "ERR_SOCKS_CONNECTION_FAILED",
   "ERR_CERT_AUTHORITY_INVALID", "ERR_TUNNEL_CONNECTION_FAILED",
   "ERR_NETWORK_CHANGED", "Timeout", "net::ERR_FAILED",
   "net::ERR_CONNECTION_ABORTED", "net::ERR_INTERNET_DISCONNECTED",
   "Navigation timeout", "TimeoutError", "Target closed"]

/-- `any(keyword in str(e) for keyword in TRANSIENT_ERRORS)`. -/
def isTransient (msg : String) : Bool :=
  TRANSIENT_ERRORS.any fun k => strContains msg k

inductive RetryEvent where
  | invoke (attempt : Nat)
  | sleep (seconds : Nat)
deriving DecidableEq, Repr

/-- The loop body of `retry_scrape`: `attempt` is the current attempt
number, `remaining` how many iterations `range(1, MAX_RETRIES + 1)` still
holds.  `.error` in the result models an exception raised to the caller,
`.ok none` the `return None` after the loop. -/
def retry_scrape_go {α : Type} (op : Nat → Except String α) :
    Nat → Nat → List RetryEvent × Except String (Option α)
  | _, 0 => ([], .ok none)
  | attempt, remaining + 1 =>
    match op attempt with
    | .ok a => ([.invoke attempt], .ok (some a))
    | .error e =>
      if isTransient e then
        let rest := retry_scrape_go op (attempt + 1) remaining
        (.invoke attempt :: .sleep RETRY_DELAY_SECONDS :: rest.1, rest.2)
      else ([.invoke attempt], .error e)

/-- `retry_scrape`: the recorded events and the outcome. -/
def retry_scrape {α : Type} (op : Nat → Except String α) :
    List RetryEvent × Except String (Option α) :=
  retry_scrape_go op 1 MAX_RETRIES

/-- C4: an operation that throws a transient-signature error on every
invocation is invoked exactly `MAX_RETRIES = 3` times, with the fixed
20-second delay between attempts, and `retry_scrape` then returns the
failure sentinel `None` without throwing. -/
theorem retry_scrape_transient_exhaustion {α : Type} (op : Nat → Except String α)
    (h : ∀ n, ∃ e, op n = .error e ∧ isTransient e = true) :
    retry_scrape op =
      ([.invoke 1, .sleep RETRY_DELAY_SECONDS, .invoke 2, .sleep RETRY_DELAY_SECONDS,
        .invoke 3, .sleep RETRY_DELAY_SECONDS], .ok none) := by
  obtain ⟨e₁, he₁, ht₁⟩ := h 1
  obtain ⟨e₂, he₂, ht₂⟩ := h 2
  obtain ⟨e₃, he₃, ht₃⟩ := h 3
  rw [retry_scrape, show MAX_RETRIES = 3 from rfl]
  simp [retry_scrape_go, he₁, ht₁, he₂, ht₂, he₃, ht₃]

/-- Witness for `retry_scrape_transient_exhaustion`: an operation that
always raises a Playwright `"Timeout"` error. -/
theorem retry_scrape_transient_exhaustion_witness :
    retry_scrape (fun _ => (.error "Timeout" : Except String Nat)) =
      ([.invoke 1, .sleep RETRY_DELAY_SECONDS, .invoke 2, .sleep RETRY_DELAY_SECONDS,
        .invoke 3, .sleep RETRY_DELAY_SECONDS], .ok none) :=
  retry_scrape_transient_exhaustion (fun _ => .error "Timeout")
    (fun _ => ⟨"Timeout", rfl, by decide⟩)

/-! ## Top-level dispatch (src/core/scraper_app.py:32-153)

`run_scraper` starts Playwright, then dispatches: explicit links (when
`match_links and sport` are truthy), else the `historic` command (requiring
sport, league and season), else `upcoming-matches` (requiring date), else
`raise ValueError("Unknown command...")`.  The whole dispatch sits inside
`try: ... except Exception as e: logger.error(...); return None`.

`CommandEnum` lives in `utils/command_enum.py`, which is not among the
repository's files; its members `HISTORIC` and `UPCOMING_MATCHES` are taken
from their uses in `run_scraper` and `main.py`, and `other` stands for any
further runtime value reaching the dispatch (which the code sends to the
`Unknown command` branch). -/

inductive CommandEnum where
  | historic
  | upcoming_matches
  | other (value : String)
deriving DecidableEq, Repr

/-- Python truthiness of an optional string (`None` and `""` are falsy). -/
def truthyStr : Option String → Bool
  | none => false
  | some s => s ≠ ""

/-- Python truthiness of an optional list (`None` and `[]` are falsy). -/
def truthyList : Option (List String) → Bool
  | none => false
  | some l => l ≠ []

/-- The arguments of `run_scraper` that its dispatch reads. -/
structure RunConfig where
  command : CommandEnum
  match_links : Option (List String)
  sport : Option String
  date : Option String
  league : Option String
  season : Option String
deriving DecidableEq, Repr

/-- Which scrape flow the dispatch hands to `retry_scrape`. -/
inductive FlowCall where
  | scrape_matches
  | scrape_historic
  | scrape_upcoming
deriving DecidableEq, Repr

/-- The body of `run_scraper`'s `try` block after Playwright starts:
`.error` is a raised `ValueError`, `.ok` the flow that runs. -/
def run_scraper_body (cfg : RunConfig) : Except String FlowCall :=
  if truthyList cfg.match_links && truthyStr cfg.sport then .ok .scrape_matches
  else if cfg.command = .historic then
    if !(truthyStr cfg.sport && truthyStr cfg.league && truthyStr cfg.season) then
      .error "Both 'sport', 'league' and 'season' must be provided for historic scraping."
    else .ok .scrape_historic
  else if cfg.command = .upcoming_matches then
    if !truthyStr cfg.date then
      .error "A valid 'date' must be provided for upcoming matches scraping."
    else .ok .scrape_upcoming
  else .error "Unknown command. Supported commands are 'upcoming-matches' and 'historic'."

/-- What `run_scraper` gives its caller: a normal return value, or a raised
exception. -/
inductive RunOutcome (α : Type) where
  | normalReturn (v : Option α)
  | raised (msg : String)
deriving DecidableEq, Repr

/-- `run_scraper` around the `try`/`except`: any exception — from the
dispatch's `raise ValueError` or from the chosen flow — is caught by the
`except Exception` handler, which logs and returns `None`.  `flow_result`
abstracts what `retry_scrape(0.0)` around the chosen flow produces. -/
def run_scraper {α : Type} (cfg : RunConfig)
    (flow_result : FlowCall → Except String (Option α)) : RunOutcome α :=
  match run_scraper_body cfg with
  | .error _ => .normalReturn none
  | .ok fc =>
    match flow_result fc with
    | .error _ => .normalReturn none
    | .ok v => .normalReturn v

/-- C5 counterexample: the historic command with no sport/league/season is a
fatal configuration error, but `run_scraper` hands its caller the normal
return value `None` — the `ValueError` is swallowed by the `except` block,
not surfaced as a rejected operation. -/
theorem run_scraper_fatal_counterexample :
    run_scraper ⟨.historic, none, none, none, none, none⟩
      (fun _ => (.ok none : Except String (Option Nat))) = .normalReturn none := by
  rfl

/-- The dispatch-level fatal configuration errors: not on the explicit-links
path, and missing sport/league/season for historic, missing date for
upcoming, or an unknown command. -/
def fatal_config (cfg : RunConfig) : Bool :=
  !(truthyList cfg.match_links && truthyStr cfg.sport) &&
  (match cfg.command with
   | .historic => !(truthyStr cfg.sport && truthyStr cfg.league && truthyStr cfg.season)
   | .upcoming_matches => !truthyStr cfg.date
   | .other _ => true)

/-- C5 amended: every fatal configuration error raises its `ValueError`
immediately — before any scrape flow is invoked and with no retry — but
`run_scraper`'s catch-all `except` block converts it into the normal return
value `None`: the caller sees a normal return, not a rejected operation. -/
theorem run_scraper_fatal_amended {α : Type} (cfg : RunConfig)
    (flow_result : FlowCall → Except String (Option α))
    (h : fatal_config cfg = true) :
    (∃ msg, run_scraper_body cfg = .error msg) ∧
    run_scraper cfg flow_result = .normalReturn none := by
  rw [fatal_config, Bool.and_eq_true] at h
  obtain ⟨h₁, h₂⟩ := h
  have hbody : ∃ msg, run_scraper_body cfg = .error msg := by
    rw [run_scraper_body]
    rw [Bool.not_eq_true'] at h₁
    rw [h₁]
    cases hcmd : cfg.command with
    | historic =>
      simp only [hcmd] at h₂
      simp [h₂]
    | upcoming_matches =>
      simp only [hcmd] at h₂
      simp [h₂]
    | other v =>
      simp
  refine ⟨hbody, ?_⟩
  obtain ⟨msg, hmsg⟩ := hbody
  rw [run_scraper, hmsg]

/-- Witness for `run_scraper_fatal_amended`: the historic command with all
arguments missing. -/
theorem run_scraper_fatal_amended_witness :
    (∃ msg, run_scraper_body ⟨.historic, none, none, none, none, none⟩ = .error msg) ∧
    run_scraper ⟨.historic, none, none, none, none, none⟩
      (fun _ => (.error "Timeout" : Except String (Option Nat))) = .normalReturn none :=
  run_scraper_fatal_amended ⟨.historic, none, none, none, none, none⟩
    (fun _ => .error "Timeout") (by decide)

/-! ## Market registry (src/core/sport_market_registry.py) and
`scrape_markets` (src/core/odds_portal_market_extractor.py:32-73)

`SportMarketRegistrar.create_market_lambda` returns
`lambda extractor, page, period="FullTime": extractor.extract_market_odds(...)`
— a callable of exactly three positional parameters, the last with a
default.  `scrape_markets` invokes the registered callable as
`market_methods[key](self, page, period, scrape_odds_history,
target_bookmaker)` — five positional arguments.  A Python callable is
modelled by its positional parameter list, its number of trailing defaults,
and the market data the closure captured; calling it with more positional
arguments than parameters is a `TypeError`.

The enums `FootballAsianHandicapMarket`, `BasketballOverUnderMarket`,
`BasketballAsianHandicapMarket` and the `Sport.BASKETBALL` member are
referenced by the registrar but their definitions are not among the
repository's files (`utils/sport_market_constants.py` lacks them), so their
member values and the basketball sport key are taken as parameters — the
theorems hold for every possible content. -/

/-- The data `create_market_lambda` closes over. -/
structure MarketSpecData where
  main_market : String
  specific_market : Option String
  odds_labels : Option (List String)
deriving DecidableEq, Repr

/-- A registered market callable: Python positional parameter names, how
many trailing parameters have defaults, and the captured market data. -/
structure PyMarketLambda where
  params : List String
  defaults : Nat
  spec : MarketSpecData
deriving DecidableEq, Repr

/-- `SportMarketRegistrar.create_market_lambda(main_market,
specific_market=None, odds_labels=None)`: the built lambda accepts exactly
`(extractor, page, period="FullTime")`. -/
def create_market_lambda (main_market : String) (specific_market : Option String)
    (odds_labels : Option (List String)) : PyMarketLambda :=
  ⟨["extractor", "page", "period"], 1, ⟨main_market, specific_market, odds_labels⟩⟩

/-- Calling a Python callable with `nargs` positional arguments: `TypeError`
when there are more arguments than parameters or fewer than the parameters
without defaults; otherwise the call proceeds (abstracted to the captured
market data). -/
def pyCall (f : PyMarketLambda) (nargs : Nat) : Except String MarketSpecData :=
  if f.params.length < nargs then .error "TypeError: too many positional arguments"
  else if nargs < f.params.length - f.defaults then
    .error "TypeError: missing positional arguments"
  else .ok f.spec

/-- Python `str.replace(old, new)` (all occurrences, left to right), for a
non-empty `old`; fuel-structured like `subDoubledGo`. -/
def pyReplaceGo (old new : List Char) : Nat → List Char → List Char
  | _, [] => []
  | 0, cs => cs
  | fuel + 1, c :: cs =>
    if old.isPrefixOf (c :: cs) then new ++ pyReplaceGo old new fuel ((c :: cs).drop old.length)
    else c :: pyReplaceGo old new fuel cs

def pyReplace (s old new : String) : String :=
  (pyReplaceGo old.toList new.toList s.toList.length s.toList).asString

/-- Python `str.split(sep)` on the character list (general form of
`splitOnSlash`). -/
def splitOnChar (sep : Char) (cs : List Char) : List (List Char) :=
  cs.foldr
    (fun c acc =>
      if c = sep then [] :: acc
      else
        match acc with
        | [] => [[c]]
        | h :: t => (c :: h) :: t)
    [[]]

/-- Python `s.split(sep)[-1]`. -/
def lastSegment (s : String) (sep : Char) : String :=
  ((splitOnChar sep s.toList).getLastD []).asString

/-- `FootballOverUnderMarket` member values (src/utils/sport_market_constants.py). -/
def FootballOverUnderMarket : List String :=
  ["over_under_0_5", "over_under_1", "over_under_1_5", "over_under_2",
   "over_under_2_5", "over_under_3", "over_under_3_5", "over_under_4",
   "over_under_4_5", "over_under_5", "over_under_5_5", "over_under_6",
   "over_under_6_5"]

/-- `FootballEuropeanHandicapMarket` member values. -/
def FootballEuropeanHandicapMarket : List String :=
  ["european_handicap_-4", "european_handicap_-3", "european_handicap_-2",
   "european_handicap_-1", "european_handicap_1", "european_handicap_2",
   "european_handicap_3", "european_handicap_4"]

/-- `TennisOverUnderSetsMarket` member values. -/
def TennisOverUnderSetsMarket : List String := ["over_under_sets_2_5"]

/-- `TennisOverUnderGamesMarket` member values. -/
def TennisOverUnderGamesMarket : List String :=
  ["over_under_games_16_5", "over_under_games_17_5", "over_under_games_18_5",
   "over_under_games_19_5", "over_under_games_20_5", "over_under_games_21_5",
   "over_under_games_22_5", "over_under_games_23_5", "over_under_games_24_5"]

/-- `TennisAsianHandicapGamesMarket` member values. -/
def TennisAsianHandicapGamesMarket : List String :=
  ["asian_handicap_games_2_5", "asian_handicap_games_3_5", "asian_handicap_games_4_5",
   "asian_handicap_games_5_5", "asian_handicap_games_6_5", "asian_handicap_games_7_5",
   "asian_handicap_games_8_5"]

/-- `TennisCorrectScoreMarket` member values. -/
def TennisCorrectScoreMarket : List String :=
  ["correct_score_2_0", "correct_score_2_1", "correct_score_0_2", "correct_score_1_2"]

/-- `SportMarketRegistrar.register_football_markets`.  `fb_asian` stands for
the member values of the missing `FootballAsianHandicapMarket` enum. -/
def register_football_markets (fb_asian : List String) :
    List (String × PyMarketLambda) :=
  [("1x2", create_market_lambda "1X2" none (some ["1", "X", "2"])),
   ("btts", create_market_lambda "Both Teams to Score" none (some ["btts_yes", "btts_no"])),
   ("double_chance", create_market_lambda "Double Chance" none (some ["1X", "12", "X2"])),
   ("dnb", create_market_lambda "Draw No Bet" none (some ["dnb_team1", "dnb_team2"]))]
  ++ FootballOverUnderMarket.map (fun v =>
      (v, create_market_lambda "Over/Under"
        (some ("Over/Under +" ++ pyReplace (pyReplace v "over_under_" "") "_" "."))
        (some ["odds_over", "odds_under"])))
  ++ FootballEuropeanHandicapMarket.map (fun v =>
      (v, create_market_lambda "European Handicap"
        (some ("European Handicap " ++ lastSegment v '_'))
        (some ["team1_handicap", "draw_handicap", "team2_handicap"])))
  ++ fb_asian.map (fun v =>
      (v, create_market_lambda "Asian Handicap"
        (some ("Asian Handicap " ++ pyReplace (pyReplace v "asian_handicap_" "") "_" "."))
        (some ["team1_handicap", "team2_handicap"])))

/-- `SportMarketRegistrar.register_tennis_markets`. -/
def register_tennis_markets : List (String × PyMarketLambda) :=
  [("match_winner", create_market_lambda "Home/Away" none (some ["player_1", "player_2"]))]
  ++ TennisOverUnderSetsMarket.map (fun v =>
      (v, create_market_lambda "Over/Under"
        (some ("Over/Under +" ++ pyReplace (pyReplace v "over_under_sets_" "") "_" "." ++ " Sets"))
        (some ["odds_over", "odds_under"])))
  ++ TennisOverUnderGamesMarket.map (fun v =>
      (v, create_market_lambda "Over/Under"
        (some ("Over/Under +" ++ pyReplace (pyReplace v "over_under_games_" "") "_" "." ++ " Games"))
        (some ["odds_over", "odds_under"])))
  ++ TennisAsianHandicapGamesMarket.map (fun v =>
      (v, create_market_lambda "Asian Handicap"
        (some ("Asian Handicap "
          ++ pyReplace (pyReplace (pyReplace v "asian_handicap_games_" "") "_games" "") "_" "."
          ++ " Games"))
        (some ["handicap_player_1", "handicap_player_2"])))
  ++ TennisCorrectScoreMarket.map (fun v =>
      (v, create_market_lambda "Correct Score"
        (some (pyReplace (pyReplace v "correct_score_" "") "_" ":"))
        (some ["correct_score"])))

/-- `SportMarketRegistrar.register_basketball_markets`.  `bb_ou` and
`bb_ah` stand for the member values of the missing
`BasketballOverUnderMarket` and `BasketballAsianHandicapMarket` enums. -/
def register_basketball_markets (bb_ou bb_ah : List String) :
    List (String × PyMarketLambda) :=
  [("1x2", create_market_lambda "1X2" none (some ["1", "X", "2"])),
   ("home_away", create_market_lambda "Home/Away" none (some ["1", "2"]))]
  ++ bb_ou.map (fun v =>
      (v, create_market_lambda "Over/Under"
        (some ("Over/Under +" ++ pyReplace (pyReplace v "over_under_games_" "") "_" "."))
        (some ["odds_over", "odds_under"])))
  ++ bb_ah.map (fun v =>
      (v, create_market_lambda "Asian Handicap"
        (some ("Asian Handicap "
          ++ pyReplace (pyReplace (pyReplace v "asian_handicap_games_" "") "_games" "") "_" "."))
        (some ["handicap_team_1", "handicap_team_2"])))

/-- `SportMarketRegistrar.register_all_markets`: the full registry,
keyed by `Sport.<X>.value` (`basketball_value` stands for the missing
`Sport.BASKETBALL.value`). -/
def register_all_markets (fb_asian bb_ou bb_ah : List String)
    (basketball_value : String) : List (String × List (String × PyMarketLambda)) :=
  [("football", register_football_markets fb_asian),
   ("tennis", register_tennis_markets),
   (basketball_value, register_basketball_markets bb_ou bb_ah)]

/-- `OddsPortalMarketExtractor.scrape_markets` over the per-sport mapping:
for each requested market key, an unsupported key is skipped (warning
only); a supported key's callable is invoked with five positional arguments
inside `try`, a raised exception storing `None` under `"<key>_market"`, a
successful call storing its value. -/
def scrape_markets (market_methods : List (String × PyMarketLambda))
    (markets : List String) : List (String × Option MarketSpecData) :=
  markets.filterMap fun key =>
    match market_methods.lookup key with
    | some f =>
      match pyCall f 5 with
      | .ok v => some (key ++ "_market", some v)
      | .error _ => some (key ++ "_market", none)
    | none => none

/-- Every entry of a registrar-built mapping is a `create_market_lambda`. -/
def entries_are_market_lambdas (l : List (String × PyMarketLambda)) : Prop :=
  ∀ p ∈ l, ∃ m sp lb, p.2 = create_market_lambda m sp lb

theorem entries_football (fb_asian : List String) :
    entries_are_market_lambdas (register_football_markets fb_asian) := by
  intro p hp
  simp only [register_football_markets, List.mem_append, List.mem_map,
    List.mem_cons, List.not_mem_nil, or_false] at hp
  rcases hp with (((rfl | rfl | rfl | rfl) | ⟨v, _, rfl⟩) | ⟨v, _, rfl⟩) | ⟨v, _, rfl⟩ <;>
    exact ⟨_, _, _, rfl⟩

theorem entries_tennis : entries_are_market_lambdas register_tennis_markets := by
  intro p hp
  simp only [register_tennis_markets, List.mem_append, List.mem_map,
    List.mem_cons, List.not_mem_nil, or_false] at hp
  rcases hp with ((((rfl | ⟨v, _, rfl⟩) | ⟨v, _, rfl⟩) | ⟨v, _, rfl⟩) | ⟨v, _, rfl⟩) <;>
    exact ⟨_, _, _, rfl⟩

theorem entries_basketball (bb_ou bb_ah : List String) :
    entries_are_market_lambdas (register_basketball_markets bb_ou bb_ah) := by
  intro p hp
  simp only [register_basketball_markets, List.mem_append, List.mem_map,
    List.mem_cons, List.not_mem_nil, or_false] at hp
  rcases hp with ((rfl | rfl) | ⟨v, _, rfl⟩) | ⟨v, _, rfl⟩ <;>
    exact ⟨_, _, _, rfl⟩

/-- C2: every callable registered by `register_all_markets` accepts exactly
the positional parameters `(extractor, page, period)`, so `scrape_markets`'s
five-positional-argument invocation raises a `TypeError`; the per-market
exception is caught inside `scrape_markets`, which stores `None` (not an
empty list) under `"<key>_market"` and continues with the remaining markets,
never propagating the exception. -/
theorem scrape_markets_arity_mismatch (fb_asian bb_ou bb_ah : List String)
    (basketball_value : String) :
    (∀ sport mapping,
      (sport, mapping) ∈ register_all_markets fb_asian bb_ou bb_ah basketball_value →
      ∀ key f, (key, f) ∈ mapping →
        f.params = ["extractor", "page", "period"] ∧
        ∃ msg, pyCall f 5 = .error msg) ∧
    (∀ mapping markets,
      (∀ key f, (key, f) ∈ mapping → ∃ msg, pyCall f 5 = .error msg) →
      scrape_markets mapping markets =
        markets.filterMap fun k =>
          if (mapping.lookup k).isSome then some (k ++ "_market", none) else none) := by
  constructor
  · intro sport mapping hmem key f hkf
    have hshape : entries_are_market_lambdas mapping := by
      simp only [register_all_markets, List.mem_cons, List.not_mem_nil, or_false,
        Prod.mk.injEq] at hmem
      rcases hmem with ⟨_, rfl⟩ | ⟨_, rfl⟩ | ⟨_, rfl⟩
      · exact entries_football fb_asian
      · exact entries_tennis
      · exact entries_basketball bb_ou bb_ah
    obtain ⟨m, sp, lb, hf⟩ := hshape (key, f) hkf
    have hf' : f = create_market_lambda m sp lb := hf
    refine ⟨by rw [hf']; rfl, "TypeError: too many positional arguments", by rw [hf']; rfl⟩
  · intro mapping markets hall
    induction markets with
    | nil => rfl
    | cons k t ih =>
      cases hlk : mapping.lookup k with
      | none =>
        simp only [scrape_markets, List.filterMap_cons, hlk, Option.isSome_none,
          Bool.false_eq_true, if_false] at ih ⊢
        exact ih
      | some f =>
        have hmem : (k, f) ∈ mapping := by
          obtain ⟨l₁, l₂, rfl, -⟩ := List.lookup_eq_some_iff.1 hlk
          simp
        obtain ⟨msg, hmsg⟩ := hall k f hmem
        simp only [scrape_markets, List.filterMap_cons, hlk, hmsg, Option.isSome_some,
          if_true] at ih ⊢
        rw [ih]

end OddsHarvester
